import Mathlib

/-!
Verification of the CodeCollab collaborative-workspace core
(`src/src/App.jsx`): the LWW document merge, the presence registry
with TTL pruning, and the storage / broadcast-channel handlers.

Conventions of the shallow embedding:
* JavaScript numbers appearing as timestamps are modelled as `Int`.
* A JSON field observed by a handler is a `JField`: absent/undefined,
  a string, a number, or some other shape (`typeof` checks dispatch on it).
* JavaScript objects holding presence entries are association lists
  `List (String × PresenceEntry)` in insertion order; updating an
  existing key keeps its position, a fresh key is appended (JS object
  key-order semantics).
* `Date.now()` is passed explicitly as a `now : Int` argument.
* Absent / `null` / `undefined` object-valued fields collapse to
  `Option.none` (the handlers only ever test them for truthiness).
-/

namespace CodeCollab

/-- A JSON-ish field value as dispatched on by the handlers'
`typeof` checks: absent (or `undefined`), a string, a number,
or anything else. -/
inductive JField where
  | absent
  | jstr (s : String)
  | jnum (n : Int)
  | jother
deriving DecidableEq, Repr

/-- `PRESENCE_TTL_MS = 45_000` from the source. -/
def PRESENCE_TTL_MS : Int := 45000

/-- The document state: `{ text, updatedAt }`. -/
structure Doc where
  text : String
  updatedAt : Int
deriving DecidableEq, Repr

/-- The default document body seeded by `readDocSnapshot` when the
durable record is absent or unparseable. -/
def defaultDocText (roomId : String) : String :=
  "# Room " ++ roomId ++ "\n\nStart collaborating here..."

/-- Outcome of `JSON.parse` on a raw document record followed by the
field accesses the handler performs: `badParse` covers a parse throw
(or a parsed `null`, whose field access throws and is caught by the
same `catch`); `parsed` carries the observed `text` and `updatedAt`
fields. -/
inductive ParsedJson where
  | badParse
  | parsed (text updatedAt : JField)
deriving DecidableEq, Repr

/-- `readDocSnapshot(key, roomId)`: `raw = none` models
`localStorage.getItem` returning `null` (or an empty string, equally
falsy). Mirrors the source: absent or unparseable raw yields the
default document stamped `Date.now()`; a parsed record is read
field-wise, `text` defaulting to `''` when not a string and
`updatedAt` defaulting to `Date.now()` when not a number. -/
def readDocSnapshot (raw : Option ParsedJson) (roomId : String) (now : Int) : Doc :=
  match raw with
  | none => { text := defaultDocText roomId, updatedAt := now }
  | some .badParse => { text := defaultDocText roomId, updatedAt := now }
  | some (.parsed t u) =>
    { text := match t with | .jstr s => s | _ => ""
      updatedAt := match u with | .jnum n => n | _ => now }

/-- A user profile `{ id, name, color }`; a falsy `user?.id` is
modelled as `id = ""`. -/
structure UserProfile where
  id : String
  name : String
  color : String
deriving DecidableEq, Repr

/-- A cursor `{ x, y, updatedAt }`. -/
structure Cursor where
  x : Int
  y : Int
  updatedAt : Int
deriving DecidableEq, Repr

/-- A presence entry `{ user, cursor, lastSeen }`; each field may be
absent. -/
structure PresenceEntry where
  user : Option UserProfile
  cursor : Option Cursor
  lastSeen : Option Int
deriving DecidableEq, Repr

/-- A presence snapshot: a JS object keyed by user id, modelled as an
association list in insertion order. -/
abbrev PresenceSnapshot := List (String × PresenceEntry)

/-- The `!entry?.lastSeen || now - entry.lastSeen <= PRESENCE_TTL_MS`
test of `prunePresenceSnapshot`: a missing `lastSeen` and the falsy
number `0` both short-circuit to keeping the entry. -/
def keepEntry (now : Int) (e : PresenceEntry) : Bool :=
  match e.lastSeen with
  | none => true
  | some t => t == 0 || decide (now - t ≤ PRESENCE_TTL_MS)

/-- `prunePresenceSnapshot(snapshot)` from the source, with its
internal `Date.now()` passed explicitly: rebuilds the snapshot keeping
exactly the entries passing `keepEntry`. -/
def prunePresenceSnapshot (snapshot : PresenceSnapshot) (now : Int) : PresenceSnapshot :=
  snapshot.filter (fun p => keepEntry now p.2)

/-- An update object passed to `upsertPresence` (the `source` being
spread): each field is either absent from the object (`none`) or
present with a possibly-undefined value (`some v`). -/
structure EntryPatch where
  user : Option (Option UserProfile)
  cursor : Option (Option Cursor)
  lastSeen : Option (Option Int)
deriving DecidableEq, Repr

/-- The empty base `{}` used when `prev[userId]` is absent. -/
def emptyEntry : PresenceEntry := { user := none, cursor := none, lastSeen := none }

/-- The shallow spread `{ ...prev[userId], ...source }`: fields present
in the patch overwrite, fields absent persist from the old entry. -/
def applyPatch (old : Option PresenceEntry) (p : EntryPatch) : PresenceEntry :=
  let base := old.getD emptyEntry
  { user := p.user.getD base.user
    cursor := p.cursor.getD base.cursor
    lastSeen := p.lastSeen.getD base.lastSeen }

/-- `prev[userId]` lookup in the snapshot object. -/
def lookupEntry (s : PresenceSnapshot) (uid : String) : Option PresenceEntry :=
  (s.find? (fun p => p.1 == uid)).map (fun p => p.2)

/-- `delete next[userId]`. -/
def removeEntry (s : PresenceSnapshot) (uid : String) : PresenceSnapshot :=
  s.filter (fun p => p.1 != uid)

/-- `next[userId] = entry`: an existing key is updated in place, a new
key is appended (JS object key order). -/
def setEntry (s : PresenceSnapshot) (uid : String) (e : PresenceEntry) : PresenceSnapshot :=
  if (s.find? (fun p => p.1 == uid)).isSome then
    s.map (fun p => if p.1 == uid then (uid, e) else p)
  else
    s ++ [(uid, e)]

/-- The `entryOrUpdater` argument of `upsertPresence`: a direct value
(`null`/`undefined` collapsing to `val none`) or an updater function
applied to the previous entry. -/
inductive Upserter where
  | val (p : Option EntryPatch)
  | fn (f : Option PresenceEntry → Option EntryPatch)

/-- `source = typeof entryOrUpdater === 'function' ?
entryOrUpdater(prev[userId]) : entryOrUpdater`; a `null` argument and a
falsy resolved `source` both resolve to `none` (both paths delete). -/
def resolveUpserter (u : Upserter) (old : Option PresenceEntry) : Option EntryPatch :=
  match u with
  | .val p => p
  | .fn f => f old

/-- The in-memory state of `CollaborativeWorkspace` relevant to the
synchronization core: the document state (with `lastUpdateRef` kept
equal to `doc.updatedAt`, as `persistDoc` always sets both together),
the presence state, the durably persisted presence snapshot, and the
`isChannelReady` flag. -/
structure RoomState where
  doc : Doc
  presence : PresenceSnapshot
  persistedPresence : PresenceSnapshot
  isChannelReady : Bool
deriving DecidableEq, Repr

/-- A fresh state used for concrete scenarios. -/
def emptyRoomState : RoomState :=
  { doc := { text := "", updatedAt := 0 }
    presence := []
    persistedPresence := []
    isChannelReady := true }

/-- `persistDoc(nextText, timestamp)`: updates `lastUpdateRef`, the doc
state, and the durable record. -/
def persistDoc (st : RoomState) (nextText : String) (timestamp : Int) : RoomState :=
  { st with doc := { text := nextText, updatedAt := timestamp } }

/-- `upsertPresence(userId, entryOrUpdater)`: skips on a falsy user id;
deletes on a null/falsy resolved source, otherwise shallow-merges it
over the existing entry; then prunes and both exposes and persists the
pruned snapshot. -/
def upsertPresence (st : RoomState) (userId : String) (entryOrUpdater : Upserter)
    (now : Int) : RoomState :=
  if userId == "" then st
  else
    let old := lookupEntry st.presence userId
    let next :=
      match resolveUpserter entryOrUpdater old with
      | none => removeEntry st.presence userId
      | some src => setEntry st.presence userId (applyPatch old src)
    let pruned := prunePresenceSnapshot next now
    { st with presence := pruned, persistedPresence := pruned }

/-- A transport payload as observed by `channel.onmessage` and
`handlePresenceMessage`: the `type`, `text`, `updatedAt`, `action`
fields are read with truthiness / `typeof` / equality checks; `user`
and `cursor` are object-valued. -/
structure Payload where
  type : JField
  text : JField
  updatedAt : JField
  user : Option UserProfile
  action : JField
  cursor : Option Cursor
deriving DecidableEq, Repr

/-- `handlePresenceMessage(payload)`: ignores payloads without a truthy
`user.id`; on `action === 'leave'` removes the entry; otherwise upserts
`{ user, cursor: cursor ?? previousEntry?.cursor, lastSeen: Date.now() }`. -/
def handlePresenceMessage (st : RoomState) (payload : Payload) (now : Int) : RoomState :=
  match payload.user with
  | none => st
  | some user =>
    if user.id == "" then st
    else if payload.action == JField.jstr "leave" then
      upsertPresence st user.id (.val none) now
    else
      upsertPresence st user.id
        (.fn (fun previousEntry =>
          some { user := some (some user)
                 cursor := some (payload.cursor.orElse (fun _ => previousEntry.bind (fun e => e.cursor)))
                 lastSeen := some (some now) }))
        now

/-- The document storage key `room-doc:<roomId>`. -/
def docStorageKey (roomId : String) : String := "room-doc:" ++ roomId

/-- The presence storage key built by `buildPresenceKey`. -/
def buildPresenceKey (roomId : String) : String := "room-presence:" ++ roomId

/-- A `storage` event: its key and the parse outcome of its
`newValue` (`none` models a falsy `newValue`). -/
structure StorageEvent where
  key : String
  newValue : Option ParsedJson
deriving DecidableEq, Repr

/-- `handleStorage(event)` from the document-sync effect: ignores
events for other keys or with falsy/unparseable values; merges a
well-typed `{text, updatedAt}` payload via `persistDoc` exactly when
`payload.updatedAt > lastUpdateRef.current`. -/
def handleStorage (st : RoomState) (roomId : String) (event : StorageEvent) : RoomState :=
  if event.key != docStorageKey roomId then st
  else
    match event.newValue with
    | none => st
    | some .badParse => st
    | some (.parsed t u) =>
      match t, u with
      | .jstr text, .jnum updatedAt =>
        if updatedAt > st.doc.updatedAt then persistDoc st text updatedAt else st
      | _, _ => st

/-- `channel.onmessage`: a falsy `event.data` is ignored; a
`type === 'presence'` payload is routed to `handlePresenceMessage`;
every other payload flows through
`const message = payload.type === 'doc' ? payload : null;
const textPayload = message ?? payload` and is merged as a document
candidate when its `text`/`updatedAt` fields are well-typed and newer. -/
def onMessage (st : RoomState) (data : Option Payload) (now : Int) : RoomState :=
  match data with
  | none => st
  | some payload =>
    if payload.type == JField.jstr "presence" then
      handlePresenceMessage st payload now
    else
      let message : Option Payload :=
        if payload.type == JField.jstr "doc" then some payload else none
      let textPayload := message.getD payload
      match textPayload.text, textPayload.updatedAt with
      | .jstr text, .jnum updatedAt =>
        if updatedAt > st.doc.updatedAt then persistDoc st text updatedAt else st
      | _, _ => st

/-- The channel-construction effect: `new BroadcastChannel(...)` inside
`try`/`catch`. On success the ready flag is set; on failure the `catch`
arm sets it false, logs a warning and returns normally (never
rethrows), which this total function models. -/
def mountChannel (constructorOk : Bool) (st : RoomState) : RoomState :=
  if constructorOk then { st with isChannelReady := true }
  else { st with isChannelReady := false }

/-- One firing of the periodic prune interval: prunes the presence
state; when nothing was removed (equal key counts) it returns the
previous state without persisting, otherwise it persists the pruned
snapshot. -/
def pruneTick (st : RoomState) (now : Int) : RoomState :=
  let pruned := prunePresenceSnapshot st.presence now
  if st.presence.length == pruned.length then st
  else { st with presence := pruned, persistedPresence := pruned }

/-- Folding a sequence of prune-timer firings over a state. -/
def runTicks (st : RoomState) (ticks : List Int) : RoomState :=
  ticks.foldl pruneTick st

/-- The firing times of the `setInterval(..., PRESENCE_TTL_MS)` timer
started at mount time `M` that occur no later than `q`:
`M + 45000·(k+1)` for `k = 0, 1, …`. -/
def tickTimes (M q : Int) : List Int :=
  ((List.range ((q - M).toNat / 45000 + 1)).map
    (fun (k : Nat) => M + 45000 * ((k : Int) + 1))).filter
    (fun s => decide (s ≤ q))

/-- `presenceList`: the exposed consumer view — the entries with a
truthy `user?.id`, sorted by descending `lastSeen ?? 0`. -/
def presenceList (st : RoomState) : List PresenceEntry :=
  ((st.presence.map Prod.snd).filter
    (fun e => match e.user with
      | some upf => upf.id != ""
      | none => false)).mergeSort
    (fun a b => decide (b.lastSeen.getD 0 ≤ a.lastSeen.getD 0))

/-- The user ids visible in the exposed presence list. -/
def exposedUserIds (st : RoomState) : List String :=
  (presenceList st).filterMap (fun e => e.user.map (fun upf => upf.id))

/-- The `{ user: currentUser, lastSeen: Date.now() }` object passed by
the join upsert: `user` and `lastSeen` present, `cursor` absent. -/
def joinPatch (u : UserProfile) (t : Int) : EntryPatch :=
  { user := some (some u), cursor := none, lastSeen := some (some t) }

/-- The single-replica presence timeline for claim scenarios: user `u`
joins at time `T` (upsert with `lastSeen = T` on a fresh state), is
never refreshed, and the prune timer started at mount time `M` fires at
its fixed interval; the state observed at query time `q`. -/
def stateAtQ (M T q : Int) (u : UserProfile) : RoomState :=
  runTicks (upsertPresence emptyRoomState u.id (.val (some (joinPatch u T))) T)
    (tickTimes M q)

/-! ### General lemmas about the embedding -/

/-- `keepEntry` keeps exactly the entries with a missing `lastSeen`,
a zero `lastSeen`, or a `lastSeen` within the TTL window. -/
theorem keepEntry_true_iff (now : Int) (e : PresenceEntry) :
    keepEntry now e = true ↔
      e.lastSeen = none ∨ e.lastSeen = some 0 ∨
        ∃ t, e.lastSeen = some t ∧ now - t ≤ PRESENCE_TTL_MS := by
  cases h : e.lastSeen with
  | none => simp [keepEntry, h]
  | some t => simp [keepEntry, h]

/-- Membership in a pruned snapshot. -/
theorem mem_prunePresenceSnapshot {s : PresenceSnapshot} {now : Int}
    {x : String × PresenceEntry} :
    x ∈ prunePresenceSnapshot s now ↔ x ∈ s ∧ keepEntry now x.2 = true := by
  simp [prunePresenceSnapshot]

/-- A prune-timer firing leaves the presence state equal to the pruned
previous state (the equal-key-count fast path returns an unchanged
state, which is then already equal to its own pruning). -/
theorem pruneTick_presence (st : RoomState) (now : Int) :
    (pruneTick st now).presence = prunePresenceSnapshot st.presence now := by
  simp only [pruneTick]
  split
  next h =>
    have h2 : (List.filter (fun p => keepEntry now p.2) st.presence).length
        = st.presence.length := by
      have h3 : st.presence.length = (prunePresenceSnapshot st.presence now).length :=
        beq_iff_eq.mp h
      simpa [prunePresenceSnapshot] using h3.symm
    have h4 : ∀ a ∈ st.presence, keepEntry now a.2 = true :=
      List.filter_length_eq_length.mp h2
    simpa [prunePresenceSnapshot] using (List.filter_eq_self.mpr h4).symm
  next => rfl

/-- Membership in the presence state after a sequence of prune-timer
firings: an entry survives iff it was there and every firing keeps it. -/
theorem mem_runTicks_presence {x : String × PresenceEntry} :
    ∀ (ticks : List Int) (st : RoomState),
      x ∈ (runTicks st ticks).presence ↔
        x ∈ st.presence ∧ ∀ s ∈ ticks, keepEntry s x.2 = true := by
  intro ticks
  induction ticks with
  | nil => intro st; simp [runTicks]
  | cons s rest ih =>
    intro st
    have hstep : runTicks st (s :: rest) = runTicks (pruneTick st s) rest := rfl
    rw [hstep, ih, pruneTick_presence, mem_prunePresenceSnapshot,
      List.forall_mem_cons]
    tauto

/-- A lookup misses exactly when no entry carries the key. -/
theorem lookupEntry_eq_none_iff {s : PresenceSnapshot} {uid : String} :
    lookupEntry s uid = none ↔ ∀ x ∈ s, x.1 ≠ uid := by
  simp [lookupEntry, List.find?_eq_none]

/-- Pruning the snapshot with an entry removed still misses that key. -/
theorem lookupEntry_prune_removeEntry (s : PresenceSnapshot) (uid : String)
    (now : Int) :
    lookupEntry (prunePresenceSnapshot (removeEntry s uid) now) uid = none := by
  apply lookupEntry_eq_none_iff.mpr
  intro x hx
  have hx2 := (mem_prunePresenceSnapshot.mp hx).1
  have hx3 := (List.mem_filter.mp hx2).2
  simpa using hx3

/-- `upsertPresence` never touches the document state. -/
theorem upsertPresence_doc (st : RoomState) (uid : String) (upd : Upserter)
    (now : Int) : (upsertPresence st uid upd now).doc = st.doc := by
  unfold upsertPresence
  split <;> rfl

/-- `handlePresenceMessage` never touches the document state. -/
theorem handlePresenceMessage_doc (st : RoomState) (p : Payload) (now : Int) :
    (handlePresenceMessage st p now).doc = st.doc := by
  unfold handlePresenceMessage
  split
  · rfl
  · split
    · rfl
    · split <;> exact upsertPresence_doc ..

/-- The storage handler on a well-typed document payload for the
matching key is exactly the LWW merge. -/
theorem handleStorage_wellTyped (st : RoomState) (roomId t : String) (u : Int) :
    handleStorage st roomId
        ⟨docStorageKey roomId, some (.parsed (.jstr t) (.jnum u))⟩
      = (if u > st.doc.updatedAt then { st with doc := ⟨t, u⟩ } else st) := by
  simp [handleStorage, persistDoc]

/-- The storage handler never decreases the observed `updatedAt`. -/
theorem handleStorage_doc_mono (st : RoomState) (roomId : String)
    (ev : StorageEvent) :
    st.doc.updatedAt ≤ (handleStorage st roomId ev).doc.updatedAt := by
  unfold handleStorage
  split
  · exact le_refl _
  · split
    · exact le_refl _
    · exact le_refl _
    · split
      · split
        · next hgt => simp [persistDoc]; omega
        · exact le_refl _
      · exact le_refl _

/-- Every non-presence channel message flows through the document
candidate path, regardless of its `type` field. -/
theorem onMessage_doc_candidate (st : RoomState) (p : Payload) (now : Int)
    (hp : (p.type == JField.jstr "presence") = false) :
    onMessage st (some p) now =
      (match p.text, p.updatedAt with
       | .jstr t2, .jnum u2 =>
         if u2 > st.doc.updatedAt then persistDoc st t2 u2 else st
       | _, _ => st) := by
  simp only [onMessage, hp]
  cases hd : p.type == JField.jstr "doc" <;> simp [hd]

/-- The channel-message handler never decreases the observed
`updatedAt`. -/
theorem onMessage_doc_mono (st : RoomState) (data : Option Payload)
    (now : Int) :
    st.doc.updatedAt ≤ (onMessage st data now).doc.updatedAt := by
  cases data with
  | none => exact le_refl _
  | some p =>
    cases hp : p.type == JField.jstr "presence" with
    | true =>
      have hroute : onMessage st (some p) now = handlePresenceMessage st p now := by
        simp only [onMessage, hp, if_true]
      rw [hroute, handlePresenceMessage_doc]
    | false =>
      rw [onMessage_doc_candidate st p now hp]
      split
      · next t2 u2 h2 =>
        split
        · next hgt => simp only [persistDoc]; omega
        · exact le_refl _
      · exact le_refl _

/-- The document view after delivering a well-typed document message
built from a document `d`: the LWW merge of `d` into the local doc. -/
theorem onMessage_docMsg_doc (st : RoomState) (d : Doc) (now : Int) :
    (onMessage st
      (some { type := .jstr "doc", text := .jstr d.text,
              updatedAt := .jnum d.updatedAt, user := none,
              action := .absent, cursor := none }) now).doc
      = (if d.updatedAt > st.doc.updatedAt then d else st.doc) := by
  rw [onMessage_doc_candidate st
    { type := .jstr "doc", text := .jstr d.text,
      updatedAt := .jnum d.updatedAt, user := none,
      action := .absent, cursor := none } now rfl]
  show (if d.updatedAt > st.doc.updatedAt
        then persistDoc st d.text d.updatedAt else st).doc
      = (if d.updatedAt > st.doc.updatedAt then d else st.doc)
  split
  · next h1 => rfl
  · next h1 => rfl

/-! ### Claim theorems -/

/-- C1: an incoming remote document candidate with string `text` and
numeric `updatedAt` — via the storage-event path or the channel-message
path — replaces the local document state iff its `updatedAt` is
strictly greater than the local one and is otherwise a no-op; on any
event whatsoever the locally observed `updatedAt` never decreases
through a merge. -/
theorem c1_merge_replaces_iff_newer (st : RoomState) (roomId t : String)
    (u now : Int) (ev : StorageEvent) (data : Option Payload) :
    (handleStorage st roomId
        ⟨docStorageKey roomId, some (.parsed (.jstr t) (.jnum u))⟩
      = (if u > st.doc.updatedAt then { st with doc := ⟨t, u⟩ } else st))
    ∧ (onMessage st
        (some ⟨.jstr "doc", .jstr t, .jnum u, none, .absent, none⟩) now
      = (if u > st.doc.updatedAt then { st with doc := ⟨t, u⟩ } else st))
    ∧ st.doc.updatedAt ≤ (handleStorage st roomId ev).doc.updatedAt
    ∧ st.doc.updatedAt ≤ (onMessage st data now).doc.updatedAt := by
  refine ⟨handleStorage_wellTyped st roomId t u, ?_,
    handleStorage_doc_mono st roomId ev, onMessage_doc_mono st data now⟩
  rw [onMessage_doc_candidate st
    ⟨.jstr "doc", .jstr t, .jnum u, none, .absent, none⟩ now rfl]
  rfl

/-- C2 counterexample: at `now = 50000`, an entry with `lastSeen = 0`
satisfies `now - lastSeen > 45000` yet survives the prune, so the
prune does not remove exactly the entries with
`now - lastSeen > 45000`. -/
theorem c2_counterexample :
    ("u", ({ user := none, cursor := none, lastSeen := some 0 } : PresenceEntry))
        ∈ prunePresenceSnapshot
            [("u", { user := none, cursor := none, lastSeen := some 0 })] 50000
    ∧ (50000 : Int) - 0 > PRESENCE_TTL_MS := by
  constructor
  · decide
  · decide

/-- C2 amended: `prune(snapshot, now)` removes exactly the entries with
a truthy `lastSeen` (present and nonzero) satisfying
`now - lastSeen > 45000`; entries lacking a `lastSeen`, or carrying
`lastSeen = 0`, are always kept; surviving entries are unchanged and in
their original order (the pruned snapshot is a sublist of the input). -/
theorem c2_amended_prune_characterization (s : PresenceSnapshot) (now : Int)
    (x : String × PresenceEntry) :
    (x ∈ prunePresenceSnapshot s now ↔
      x ∈ s ∧ (x.2.lastSeen = none ∨ x.2.lastSeen = some 0 ∨
        ∃ t, x.2.lastSeen = some t ∧ now - t ≤ PRESENCE_TTL_MS))
    ∧ (prunePresenceSnapshot s now).Sublist s := by
  constructor
  · rw [mem_prunePresenceSnapshot, keepEntry_true_iff]
  · exact List.filter_sublist s

/-- C3: for two document states with distinct timestamps, delivering
either one as a channel document message to a replica holding the
other yields the same document — the one with the greater
`updatedAt`. -/
theorem c3_lww_merge_commutes (st1 st2 : RoomState) (A B : Doc)
    (now1 now2 : Int) (h : A.updatedAt ≠ B.updatedAt) :
    ((onMessage { st1 with doc := A }
        (some ⟨.jstr "doc", .jstr B.text, .jnum B.updatedAt, none, .absent, none⟩)
        now1).doc
      = (onMessage { st2 with doc := B }
          (some ⟨.jstr "doc", .jstr A.text, .jnum A.updatedAt, none, .absent, none⟩)
          now2).doc)
    ∧ (onMessage { st1 with doc := A }
        (some ⟨.jstr "doc", .jstr B.text, .jnum B.updatedAt, none, .absent, none⟩)
        now1).doc
      = (if B.updatedAt > A.updatedAt then B else A) := by
  have e1 := onMessage_docMsg_doc { st1 with doc := A } B now1
  have e2 := onMessage_docMsg_doc { st2 with doc := B } A now2
  dsimp only at e1 e2
  rw [e1, e2]
  refine ⟨?_, rfl⟩
  rcases lt_or_gt_of_ne h with h1 | h1
  · rw [if_pos h1, if_neg (by omega)]
  · rw [if_neg (by omega), if_pos h1]

/-- C3 witness: two concrete documents with distinct timestamps merge
to the newer one in both orders. -/
theorem c3_lww_merge_commutes_witness :
    ((onMessage { emptyRoomState with doc := ⟨"a", 1⟩ }
        (some ⟨.jstr "doc", .jstr "b", .jnum 2, none, .absent, none⟩) 0).doc
      = (onMessage { emptyRoomState with doc := ⟨"b", 2⟩ }
          (some ⟨.jstr "doc", .jstr "a", .jnum 1, none, .absent, none⟩) 0).doc)
    ∧ (onMessage { emptyRoomState with doc := ⟨"a", 1⟩ }
        (some ⟨.jstr "doc", .jstr "b", .jnum 2, none, .absent, none⟩) 0).doc
      = (if (2 : Int) > 1 then (⟨"b", 2⟩ : Doc) else ⟨"a", 1⟩) :=
  c3_lww_merge_commutes emptyRoomState emptyRoomState ⟨"a", 1⟩ ⟨"b", 2⟩ 0 0
    (by decide)

/-- C4 counterexample: a durable record that parses but lacks a `text`
field yields `{text: "", updatedAt: 5}` — the stored timestamp with an
empty text — not the room's placeholder default stamped with the
current time, contradicting the claim that malformed records degrade
to the default document. -/
theorem c4_counterexample :
    readDocSnapshot (some (.parsed .absent (.jnum 5))) "r" 100
        = { text := "", updatedAt := 5 }
    ∧ readDocSnapshot (some (.parsed .absent (.jnum 5))) "r" 100
        ≠ { text := defaultDocText "r", updatedAt := 100 } := by
  constructor
  · rfl
  · decide

/-- C4 amended: `load` never fails; an absent or unparseable record
degrades to the default document stamped with the current time; a
record that parses is read field-wise — a well-typed record returns the
stored `{text, updatedAt}`, a non-string `text` degrades to the empty
string, and a non-number `updatedAt` degrades to the current time. -/
theorem c4_amended_load_degrades_fieldwise (roomId s : String) (now n : Int)
    (t u : JField) :
    readDocSnapshot none roomId now
        = { text := defaultDocText roomId, updatedAt := now }
    ∧ readDocSnapshot (some .badParse) roomId now
        = { text := defaultDocText roomId, updatedAt := now }
    ∧ readDocSnapshot (some (.parsed (.jstr s) (.jnum n))) roomId now
        = { text := s, updatedAt := n }
    ∧ ((readDocSnapshot (some (.parsed t u)) roomId now).text = ""
        ∨ ∃ s2, t = .jstr s2
            ∧ (readDocSnapshot (some (.parsed t u)) roomId now).text = s2)
    ∧ ((readDocSnapshot (some (.parsed t u)) roomId now).updatedAt = now
        ∨ ∃ n2, u = .jnum n2
            ∧ (readDocSnapshot (some (.parsed t u)) roomId now).updatedAt = n2) := by
  refine ⟨rfl, rfl, rfl, ?_, ?_⟩
  · cases t <;> simp [readDocSnapshot]
  · cases u <;> simp [readDocSnapshot]

/-- C6: when channel construction fails the effect completes normally
with the channel marked not ready (modelled by the total `mountChannel`
function), the document state is untouched, and a remote document
update arriving through the storage-notification path alone is still
merged by the LWW rule, never decreasing the observed `updatedAt`. -/
theorem c6_channel_failure_degrades (st : RoomState) (roomId t : String)
    (u : Int) (ev : StorageEvent) :
    (mountChannel false st).isChannelReady = false
    ∧ (mountChannel false st).doc = st.doc
    ∧ (handleStorage (mountChannel false st) roomId
        ⟨docStorageKey roomId, some (.parsed (.jstr t) (.jnum u))⟩
      = (if u > st.doc.updatedAt
         then { mountChannel false st with doc := ⟨t, u⟩ }
         else mountChannel false st))
    ∧ st.doc.updatedAt
        ≤ (handleStorage (mountChannel false st) roomId ev).doc.updatedAt := by
  refine ⟨rfl, rfl, ?_, ?_⟩
  · rw [handleStorage_wellTyped]
    rfl
  · exact handleStorage_doc_mono (mountChannel false st) roomId ev

/-- C10: pruning keeps every entry whose `lastSeen` is falsy — absent
(covering `null`/`undefined`) or the number `0` — no matter how large
`now` is; in particular an entry with `lastSeen = 0` is never
expired. -/
theorem c10_falsy_lastSeen_never_pruned (s : PresenceSnapshot) (now : Int)
    (x : String × PresenceEntry) (hx : x ∈ s)
    (h : x.2.lastSeen = none ∨ x.2.lastSeen = some 0) :
    x ∈ prunePresenceSnapshot s now := by
  refine mem_prunePresenceSnapshot.mpr ⟨hx, ?_⟩
  rcases h with h | h <;> simp [keepEntry, h]

/-- C10 witness: a concrete entry with `lastSeen = 0` survives a prune
at a very large `now`. -/
theorem c10_falsy_lastSeen_never_pruned_witness :
    ("u", ({ user := none, cursor := none, lastSeen := some 0 } : PresenceEntry))
      ∈ prunePresenceSnapshot
          [("u", { user := none, cursor := none, lastSeen := some 0 })]
          1000000000 :=
  c10_falsy_lastSeen_never_pruned
    [("u", { user := none, cursor := none, lastSeen := some 0 })] 1000000000
    ("u", { user := none, cursor := none, lastSeen := some 0 })
    (by simp) (Or.inr rfl)

/-- C5 counterexample: a channel message whose `type` field is absent —
neither `"doc"` nor `"presence"` — but which carries a string `text`
and a newer numeric `updatedAt` is NOT ignored: it changes the local
document state. -/
theorem c5_counterexample :
    onMessage { emptyRoomState with doc := { text := "a", updatedAt := 5 } }
        (some { type := .absent, text := .jstr "x", updatedAt := .jnum 10,
                user := none, action := .absent, cursor := none }) 0
      ≠ { emptyRoomState with doc := { text := "a", updatedAt := 5 } }
    ∧ (onMessage { emptyRoomState with doc := { text := "a", updatedAt := 5 } }
        (some { type := .absent, text := .jstr "x", updatedAt := .jnum 10,
                user := none, action := .absent, cursor := none }) 0).doc
      = { text := "x", updatedAt := 10 }
    ∧ ({ type := .absent, text := .jstr "x", updatedAt := .jnum 10,
         user := none, action := .absent,
         cursor := none } : Payload).type ≠ .jstr "doc"
    ∧ ({ type := .absent, text := .jstr "x", updatedAt := .jnum 10,
         user := none, action := .absent,
         cursor := none } : Payload).type ≠ .jstr "presence" := by
  refine ⟨by decide, rfl, by decide, by decide⟩

/-- C5 amended: a falsy message is ignored; a message typed
`"presence"` without a usable `user.id` is ignored; every message whose
`type` is not `"presence"` — including a missing or unknown `type` —
is treated as a document candidate: it is ignored exactly when its
`text` is not a string, its `updatedAt` is not a number, or its
`updatedAt` is not strictly newer, and otherwise merged; no error is
raised on any of these paths (all handlers are total). -/
theorem c5_amended_nonpresence_treated_as_doc (st : RoomState)
    (p q : Payload) (now : Int)
    (hp : p.type ≠ JField.jstr "presence")
    (hq : q.type = JField.jstr "presence") (hqu : q.user = none) :
    onMessage st none now = st
    ∧ onMessage st (some p) now =
        (match p.text, p.updatedAt with
         | .jstr t2, .jnum u2 =>
           if u2 > st.doc.updatedAt then persistDoc st t2 u2 else st
         | _, _ => st)
    ∧ onMessage st (some q) now = st := by
  refine ⟨rfl, ?_, ?_⟩
  · exact onMessage_doc_candidate st p now (beq_eq_false_iff_ne.mpr hp)
  · have hq2 : (q.type == JField.jstr "presence") = true := by
      rw [hq]
      decide
    simp only [onMessage, hq2, if_true]
    simp [handlePresenceMessage, hqu]

/-- C5 amended witness: a message with an unknown `type` and malformed
document fields leaves a concrete state unchanged. -/
theorem c5_amended_nonpresence_treated_as_doc_witness :
    onMessage emptyRoomState
      (some { type := .jother, text := .jother, updatedAt := .absent,
              user := none, action := .absent, cursor := none }) 7
      = emptyRoomState :=
  (c5_amended_nonpresence_treated_as_doc emptyRoomState
    { type := .jother, text := .jother, updatedAt := .absent,
      user := none, action := .absent, cursor := none }
    { type := .jstr "presence", text := .absent, updatedAt := .absent,
      user := none, action := .absent, cursor := none }
    7 (by decide) rfl rfl).2.1

/-- C7 counterexample: an upsert that writes `lastSeen = 0` at
`now = 100000` leaves an entry whose `lastSeen` is present and older
than 45000 ms both exposed and persisted immediately after the
mutation. -/
theorem c7_counterexample :
    (upsertPresence emptyRoomState "u"
        (Upserter.val (some { user := none, cursor := none,
                              lastSeen := some (some 0) })) 100000).presence
      = [("u", { user := none, cursor := none, lastSeen := some 0 })]
    ∧ (upsertPresence emptyRoomState "u"
        (Upserter.val (some { user := none, cursor := none,
                              lastSeen := some (some 0) })) 100000).persistedPresence
      = [("u", { user := none, cursor := none, lastSeen := some 0 })]
    ∧ (100000 : Int) - 0 > PRESENCE_TTL_MS := by
  refine ⟨rfl, rfl, by decide⟩

/-- C7 amended: for every presence mutation with a usable user id — a
resolved `null`/absent value removes the entry; otherwise the new entry
is the shallow merge of the update over the existing entry; after the
mutation the exposed state and the persisted record both equal the
pruned post-mutation snapshot, so no entry with a truthy (present and
nonzero) `lastSeen` older than 45000 ms is exposed or persisted. -/
theorem c7_amended_upsert_prunes_and_persists (st : RoomState)
    (uid : String) (upd : Upserter) (now : Int) (h : uid ≠ "") :
    (resolveUpserter upd (lookupEntry st.presence uid) = none →
        (upsertPresence st uid upd now).presence
          = prunePresenceSnapshot (removeEntry st.presence uid) now
        ∧ lookupEntry (upsertPresence st uid upd now).presence uid = none)
    ∧ (∀ src, resolveUpserter upd (lookupEntry st.presence uid) = some src →
        (upsertPresence st uid upd now).presence
          = prunePresenceSnapshot
              (setEntry st.presence uid
                (applyPatch (lookupEntry st.presence uid) src)) now)
    ∧ (upsertPresence st uid upd now).persistedPresence
        = (upsertPresence st uid upd now).presence
    ∧ (∀ x ∈ (upsertPresence st uid upd now).presence,
        ∀ t, x.2.lastSeen = some t → t ≠ 0 → now - t ≤ PRESENCE_TTL_MS) := by
  have huid : (uid == "") = false := beq_eq_false_iff_ne.mpr h
  refine ⟨?_, ?_, ?_, ?_⟩
  · intro hr
    have hp : (upsertPresence st uid upd now).presence
        = prunePresenceSnapshot (removeEntry st.presence uid) now := by
      simp [upsertPresence, huid, hr]
    exact ⟨hp, hp ▸ lookupEntry_prune_removeEntry st.presence uid now⟩
  · intro src hr
    simp [upsertPresence, huid, hr]
  · cases hr : resolveUpserter upd (lookupEntry st.presence uid) <;>
      simp [upsertPresence, huid, hr]
  · intro x hx t ht ht0
    have hx2 : keepEntry now x.2 = true := by
      cases hr : resolveUpserter upd (lookupEntry st.presence uid) with
      | none =>
        have hp : (upsertPresence st uid upd now).presence
            = prunePresenceSnapshot (removeEntry st.presence uid) now := by
          simp [upsertPresence, huid, hr]
        rw [hp] at hx
        exact (mem_prunePresenceSnapshot.mp hx).2
      | some src =>
        have hp : (upsertPresence st uid upd now).presence
            = prunePresenceSnapshot
                (setEntry st.presence uid
                  (applyPatch (lookupEntry st.presence uid) src)) now := by
          simp [upsertPresence, huid, hr]
        rw [hp] at hx
        exact (mem_prunePresenceSnapshot.mp hx).2
    rcases (keepEntry_true_iff now x.2).mp hx2 with h1 | h1 | ⟨t2, h2, h3⟩
    · rw [ht] at h1
      exact absurd h1 (by simp)
    · rw [ht] at h1
      exact absurd (Option.some.inj h1) ht0
    · rw [ht] at h2
      rw [Option.some.inj h2] at ht0 ⊢
      exact h3

/-- C7 amended witness: a concrete removal upsert leaves no entry for
the user id. -/
theorem c7_amended_upsert_prunes_and_persists_witness :
    lookupEntry
      (upsertPresence emptyRoomState "u" (Upserter.val none) 100).presence "u"
      = none :=
  ((c7_amended_upsert_prunes_and_persists emptyRoomState "u"
    (Upserter.val none) 100 (by decide)).1 rfl).2

/-- C8: receiving a `"leave"` presence message for a user with a usable
id immediately removes that user from both the exposed registry and the
persisted snapshot, for every prior state (hence regardless of the
entry's `lastSeen` or the TTL timer), and leaves the document state
unchanged. -/
theorem c8_leave_removes_immediately (st : RoomState) (u : UserProfile)
    (cur : Option Cursor) (txt upd : JField) (now : Int) (h : u.id ≠ "") :
    lookupEntry (onMessage st
        (some { type := .jstr "presence", text := txt, updatedAt := upd,
                user := some u, action := .jstr "leave", cursor := cur })
        now).presence u.id = none
    ∧ lookupEntry (onMessage st
        (some { type := .jstr "presence", text := txt, updatedAt := upd,
                user := some u, action := .jstr "leave", cursor := cur })
        now).persistedPresence u.id = none
    ∧ (onMessage st
        (some { type := .jstr "presence", text := txt, updatedAt := upd,
                user := some u, action := .jstr "leave", cursor := cur })
        now).doc = st.doc := by
  have huid : (u.id == "") = false := beq_eq_false_iff_ne.mpr h
  have hroute : onMessage st
      (some { type := .jstr "presence", text := txt, updatedAt := upd,
              user := some u, action := .jstr "leave", cursor := cur }) now
      = upsertPresence st u.id (.val none) now := by
    simp [onMessage, handlePresenceMessage, huid]
  have hpres : (upsertPresence st u.id (Upserter.val none) now).presence
      = prunePresenceSnapshot (removeEntry st.presence u.id) now := by
    simp [upsertPresence, resolveUpserter, huid]
  have hpers : (upsertPresence st u.id (Upserter.val none) now).persistedPresence
      = prunePresenceSnapshot (removeEntry st.presence u.id) now := by
    simp [upsertPresence, resolveUpserter, huid]
  refine ⟨?_, ?_, ?_⟩
  · rw [hroute, hpres]
    exact lookupEntry_prune_removeEntry st.presence u.id now
  · rw [hroute, hpers]
    exact lookupEntry_prune_removeEntry st.presence u.id now
  · rw [hroute]
    exact upsertPresence_doc st u.id (.val none) now

/-- C8 witness: a concrete user present with a fresh `lastSeen` is gone
immediately after a `"leave"` message, well before the TTL elapses. -/
theorem c8_leave_removes_immediately_witness :
    lookupEntry (onMessage
      { doc := { text := "", updatedAt := 0 }
        presence := [("u", { user := some { id := "u", name := "U", color := "c" },
                             cursor := none, lastSeen := some 10 })]
        persistedPresence := [("u", { user := some { id := "u", name := "U", color := "c" },
                                      cursor := none, lastSeen := some 10 })]
        isChannelReady := true }
      (some { type := .jstr "presence", text := .absent, updatedAt := .absent,
              user := some { id := "u", name := "U", color := "c" },
              action := .jstr "leave", cursor := none }) 20).presence "u"
      = none :=
  (c8_leave_removes_immediately
    { doc := { text := "", updatedAt := 0 }
      presence := [("u", { user := some { id := "u", name := "U", color := "c" },
                           cursor := none, lastSeen := some 10 })]
      persistedPresence := [("u", { user := some { id := "u", name := "U", color := "c" },
                                    cursor := none, lastSeen := some 10 })]
      isChannelReady := true }
    { id := "u", name := "U", color := "c" } none .absent .absent 20
    (by decide)).1

/-- Membership in the list of timer firing times. -/
theorem mem_tickTimes {M q s : Int} :
    s ∈ tickTimes M q ↔
      (∃ k : ℕ, k < (q - M).toNat / 45000 + 1
        ∧ M + 45000 * ((k : Int) + 1) = s) ∧ s ≤ q := by
  constructor
  · intro hs
    have h2 := List.mem_filter.mp hs
    obtain ⟨k, hk, hks⟩ := List.mem_map.mp h2.1
    exact ⟨⟨k, List.mem_range.mp hk, hks⟩, by simpa using h2.2⟩
  · rintro ⟨⟨k, hk, hks⟩, h3⟩
    exact List.mem_filter.mpr
      ⟨List.mem_map.mpr ⟨k, List.mem_range.mpr hk, hks⟩, by simpa using h3⟩

/-- The presence state right after the join upsert on a fresh room:
exactly one entry for the joining user, stamped with the join time. -/
theorem joinState_presence (u : UserProfile) (T : Int)
    (h : (u.id == "") = false) :
    (upsertPresence emptyRoomState u.id (.val (some (joinPatch u T))) T).presence
      = [(u.id, { user := some u, cursor := none, lastSeen := some T })] := by
  have hkeep : keepEntry T { user := some u, cursor := none, lastSeen := some T }
      = true := by
    simp [keepEntry, PRESENCE_TTL_MS]
  simp [upsertPresence, resolveUpserter, h, emptyRoomState, lookupEntry,
    setEntry, applyPatch, joinPatch, emptyEntry, prunePresenceSnapshot, hkeep]

/-- A user id is visible in the exposed presence list iff some entry of
the presence state carries it with a truthy `user.id`. -/
theorem mem_exposedUserIds {st : RoomState} {i : String} :
    i ∈ exposedUserIds st ↔
      ∃ x ∈ st.presence, ∃ upf, x.2.user = some upf ∧ upf.id = i ∧ upf.id ≠ "" := by
  unfold exposedUserIds presenceList
  constructor
  · intro hmem
    rw [List.mem_filterMap] at hmem
    obtain ⟨e, he, hei⟩ := hmem
    rw [(List.mergeSort_perm _ _).mem_iff, List.mem_filter] at he
    obtain ⟨he1, he2⟩ := he
    rw [List.mem_map] at he1
    obtain ⟨x, hx, rfl⟩ := he1
    obtain ⟨upf, hupf1, hupf2⟩ := Option.map_eq_some'.mp hei
    refine ⟨x, hx, upf, hupf1, hupf2, ?_⟩
    rw [hupf1] at he2
    simpa using he2
  · rintro ⟨x, hx, upf, hu, hid, hne⟩
    rw [List.mem_filterMap]
    refine ⟨x.2, ?_, ?_⟩
    · rw [(List.mergeSort_perm _ _).mem_iff, List.mem_filter]
      refine ⟨List.mem_map_of_mem _ hx, ?_⟩
      rw [hu]
      simpa using hne
    · rw [hu]
      simp [hid]

/-- C9 counterexample: user joins at `T = 1` (mount `M = 1`, so the
timer fires at 45001, 90001, …); the firing at 45001 keeps the entry
(`45001 - 1 = 45000` is not past the TTL), so at query time
`q = 45002 ≥ T + 45001` the user is still exposed, where the claim
requires absence. -/
theorem c9_counterexample :
    "u" ∈ exposedUserIds
        (stateAtQ 1 1 45002 { id := "u", name := "U", color := "c" })
    ∧ (45002 : Int) ≥ 1 + 45001 := by
  constructor
  · apply mem_exposedUserIds.mpr
    refine ⟨("u", { user := some { id := "u", name := "U", color := "c" },
                    cursor := none, lastSeen := some 1 }), ?_,
      { id := "u", name := "U", color := "c" }, rfl, rfl, by decide⟩
    show _ ∈ (stateAtQ 1 1 45002 { id := "u", name := "U", color := "c" }).presence
    decide
  · decide

/-- C9 amended: a presence entry created with `lastSeen = T > 0`
(after mount time `M`) and never refreshed is exposed at every query
time `≤ T + 44999`, and is guaranteed absent at every query time
`≥ T + 90000`: it is removed at the first timer firing strictly more
than 45000 ms after `T`, which may be as late as `T + 90000` depending
on the timer phase — not at `T + 45001`. -/
theorem c9_amended_ttl_expiry_window (M T q : Int) (u : UserProfile)
    (h : u.id ≠ "") (hMT : M ≤ T) (hT : 0 < T) :
    (q ≤ T + 44999 → u.id ∈ exposedUserIds (stateAtQ M T q u))
    ∧ (T + 90000 ≤ q → u.id ∉ exposedUserIds (stateAtQ M T q u)) := by
  have huid : (u.id == "") = false := beq_eq_false_iff_ne.mpr h
  constructor
  · intro hq
    apply mem_exposedUserIds.mpr
    refine ⟨(u.id, { user := some u, cursor := none, lastSeen := some T }),
      ?_, u, rfl, rfl, h⟩
    show _ ∈ (stateAtQ M T q u).presence
    unfold stateAtQ
    rw [mem_runTicks_presence]
    constructor
    · rw [joinState_presence u T huid]
      exact List.mem_singleton.mpr rfl
    · intro s hs
      obtain ⟨⟨k, hk, hks⟩, hsq⟩ := mem_tickTimes.mp hs
      have hbound : s - T ≤ PRESENCE_TTL_MS := by
        simp only [PRESENCE_TTL_MS]
        omega
      simp only [keepEntry, Bool.or_eq_true, beq_iff_eq, decide_eq_true_eq]
      exact Or.inr hbound
  · intro hq hmem
    obtain ⟨x, hx, upf, hu2, hid2, hne⟩ := mem_exposedUserIds.mp hmem
    unfold stateAtQ at hx
    rw [mem_runTicks_presence] at hx
    obtain ⟨hx0, hall⟩ := hx
    rw [joinState_presence u T huid] at hx0
    have hxe : x = (u.id, { user := some u, cursor := none, lastSeen := some T }) :=
      List.mem_singleton.mp hx0
    have hk0 : ∃ k : ℕ, M + 45000 * ((k : Int) + 1) ≤ q
        ∧ T + 45001 ≤ M + 45000 * ((k : Int) + 1)
        ∧ k < (q - M).toNat / 45000 + 1 := by
      refine ⟨((T - M) / 45000 + 1).toNat, ?_, ?_, ?_⟩ <;> omega
    obtain ⟨k, hk1, hk2, hk3⟩ := hk0
    have hs : M + 45000 * ((k : Int) + 1) ∈ tickTimes M q :=
      mem_tickTimes.mpr ⟨⟨k, hk3, rfl⟩, hk1⟩
    have hkeep := hall _ hs
    rw [hxe] at hkeep
    simp only [keepEntry, Bool.or_eq_true, beq_iff_eq, decide_eq_true_eq,
      PRESENCE_TTL_MS] at hkeep
    omega

/-- C9 amended witness: with mount and join at time 1, the user is
exposed at query time 40000 and gone at query time 91001. -/
theorem c9_amended_ttl_expiry_window_witness :
    "u" ∈ exposedUserIds
        (stateAtQ 0 1 40000 { id := "u", name := "U", color := "c" })
    ∧ "u" ∉ exposedUserIds
        (stateAtQ 0 1 91001 { id := "u", name := "U", color := "c" }) :=
  ⟨(c9_amended_ttl_expiry_window 0 1 40000 { id := "u", name := "U", color := "c" }
      (by decide) (by decide) (by decide)).1 (by decide),
   (c9_amended_ttl_expiry_window 0 1 91001 { id := "u", name := "U", color := "c" }
      (by decide) (by decide) (by decide)).2 (by decide)⟩

end CodeCollab
